import Mathlib

/-!
Verification of the realityhub-api broker library.

This file gives a shallow embedding of the parts of the library that the
checked properties speak about:

* the JavaScript `Map`-backed subscription table of `BrokerBase`
  (`subscribeToAPIEvent` / `unsubscribeFromAPIEvent` in `BrokerBase.js`),
* the API-handler table and its registration paths
  (`registerAPIHandler` and the method proxy's `set` trap),
* the awaited-request outcome of `BrokerBase.sendMessage`,
* the `onceMultiple` promise helper,
* the maximum-packet-size computation of the `BrokerBase` constructor,
* the duplicate-forwarding behaviour of `BrokerClient.handleMessage`,
* `BrokerClient.deregisterHandlersFromRemotes` and the `once` case of the
  method proxy.

JavaScript `Map`s are modelled as association lists that keep insertion
order, handler functions by opaque numeric identities, and JavaScript
numbers (where NaN matters) by an `Int`-or-NaN type.
-/

namespace RealityHub

/-- Association-list model of a JavaScript `Map` keyed by strings.
Insertion order is preserved: `set` on a fresh key appends. -/
abbrev JMap (β : Type) := List (String × β)

namespace JMap

variable {β : Type}

/-- `map.has(k)` -/
def hasKey (m : JMap β) (k : String) : Bool :=
  m.any (fun p => p.1 = k)

/-- `map.get(k)` (`none` = `undefined`). -/
def getKey? (m : JMap β) (k : String) : Option β :=
  (m.find? (fun p => p.1 = k)).map (fun p => p.2)

/-- `map.set(k, v)`: overwrite in place if the key exists, append otherwise. -/
def setKey (m : JMap β) (k : String) (v : β) : JMap β :=
  match m with
  | [] => [(k, v)]
  | p :: rest => if p.1 = k then (k, v) :: rest else p :: setKey rest k v

/-- `map.delete(k)` -/
def deleteKey (m : JMap β) (k : String) : JMap β :=
  match m with
  | [] => []
  | p :: rest => if p.1 = k then rest else p :: deleteKey rest k

theorem getKey_setKey_self (m : JMap β) (k : String) (v : β) :
    (m.setKey k v).getKey? k = some v := by
  induction m with
  | nil => simp [setKey, getKey?, List.find?]
  | cons p rest ih =>
    by_cases hp : p.1 = k
    · simp [setKey, getKey?, hp, List.find?]
    · simpa [setKey, getKey?, hp, List.find?] using ih

theorem getKey_setKey_other (m : JMap β) (k k2 : String) (v : β) (hne : k2 ≠ k) :
    (m.setKey k v).getKey? k2 = m.getKey? k2 := by
  induction m with
  | nil => simp [setKey, getKey?, List.find?, Ne.symm hne]
  | cons p rest ih =>
    by_cases hp : p.1 = k
    · have hp2 : p.1 ≠ k2 := by rw [hp]; exact Ne.symm hne
      simp [setKey, getKey?, List.find?, hp, hp2, Ne.symm hne]
    · by_cases hp2 : p.1 = k2
      · simp [setKey, getKey?, hp, hp2, hne, List.find?]
      · simpa [setKey, getKey?, hp, hp2, List.find?] using ih

end JMap

/-! ## Subscription table (`BrokerBase.subscribeToAPIEvent` / `unsubscribeFromAPIEvent`)

`this.events : Map<string, Array<{eventHandler, once}>>`.  Handler functions
are modelled by numeric identities (`===` on functions is identity). -/

/-- One element of a subscription entry list: `{ eventHandler, once }`. -/
structure SubEntry where
  eventHandler : Nat
  once : Bool
deriving DecidableEq, Repr

/-- The state-mutating part of `BrokerBase.subscribeToAPIEvent` (lines 358-361):
read the entry list (empty if absent), push `{eventHandler, once}`, store it
back under `eventName`. -/
def subscribeLocal (events : JMap (List SubEntry)) (eventName : String)
    (eventHandler : Nat) (once : Bool) : JMap (List SubEntry) :=
  let handlerArray := (events.getKey? eventName).getD []
  events.setKey eventName (handlerArray ++ [⟨eventHandler, once⟩])

/-- The state-mutating part of `BrokerBase.unsubscribeFromAPIEvent`
(lines 386-391): with a handler, store back the entry list filtered to the
entries whose handler differs; without one, delete the key. -/
def unsubscribeLocal (events : JMap (List SubEntry)) (eventName : String)
    (eventHandler : Option Nat) : JMap (List SubEntry) :=
  match eventHandler with
  | some h =>
      let handlerArray :=
        ((events.getKey? eventName).getD []).filter (fun entry => entry.eventHandler ≠ h)
      events.setKey eventName handlerArray
  | none => events.deleteKey eventName

/-- Handlers invoked for an inbound `event` frame named `eventName`
(`BrokerClient.handleMessage`, `event` case): every entry stored under the
matching key fires, in order. -/
def firingEntries (events : JMap (List SubEntry)) (eventName : String) : List SubEntry :=
  (events.getKey? eventName).getD []

/-! ## API-handler table (`BrokerBase.registerAPIHandler` and the proxy `set` trap)

`this.apiHandlers : Map<string, {relay, messageHandler}>`. -/

/-- One value of the API-handler table: `{ relay, messageHandler }`. -/
structure APIHandler where
  relay : Bool
  messageHandler : Nat
deriving DecidableEq, Repr

/-- `BrokerBase.registerAPIHandler(messageType, messageHandler)` (lines 327-338):
prefix the local name with `<moduleName>.`; if the key is present return
`false` without touching the table, else install `{relay: false,
messageHandler}` and return `true`. -/
def registerAPIHandler (moduleName : String) (apiHandlers : JMap APIHandler)
    (messageType : String) (messageHandler : Nat) : JMap APIHandler × Bool :=
  let messageType := moduleName ++ "." ++ messageType
  if apiHandlers.hasKey messageType then (apiHandlers, false)
  else (apiHandlers.setKey messageType ⟨false, messageHandler⟩, true)

/-- The `set` trap of `BrokerBase.getMethodProxy` (lines 227-242): throws unless
the proxy addresses the client's own module and the value is a function;
throws on the reserved names `emit`, `on`, `off`; otherwise delegates to
`registerAPIHandler`.  `handlerIsFunction` models `typeof handler ===
'function'`. -/
def methodProxySet (selfModuleName vendorName moduleName : String)
    (apiHandlers : JMap APIHandler) (methodName : String)
    (handlerIsFunction : Bool) (handler : Nat) :
    Except String (JMap APIHandler × Bool) :=
  if selfModuleName ≠ vendorName ++ "." ++ moduleName then
    .error "Cannot register methods to other modules."
  else if ¬handlerIsFunction then
    .error "Handler must be a function."
  else if methodName = "emit" ∨ methodName = "on" ∨ methodName = "off" then
    .error (methodName ++ " is a reserved method name.")
  else
    .ok (registerAPIHandler selfModuleName apiHandlers methodName handler)

/-! ## Awaited-request outcome of `BrokerBase.sendMessage` (lines 416-463)

After the frame is written to the socket, a message whose `type` is neither
`event` nor `response` awaits `onceMultiple(this, ['response::<id>'],
deadline)`.  The input `arrival` is `none` when the deadline fires first
(the `onceMultiple` promise rejects with a `TimeoutError`) and `some r` when
the correlated response frame `r` arrives in time. -/

/-- A member of a response frame's `data` array; `error` is its `.error`
field (`none` = absent / not a string). -/
structure RespItem where
  error : Option String
deriving DecidableEq, Repr

/-- An inbound `response` frame, as consumed by `sendMessage`: its `success`
flag and its `data` field (`none` when `data` is not an `Array`). -/
structure ResponseMsg where
  success : Bool
  data : Option (List RespItem)
deriving DecidableEq, Repr

/-- JavaScript truthiness of the optional string `data[0].error`. -/
def truthyStr : Option String → Bool
  | some s => s ≠ ""
  | none => false

/-- The `errorMessage` computed at `sendMessage` lines 453-457: the remote's
first error string when `data` is a non-empty array whose first element has
a truthy `.error`, else the generic failure string. -/
def brokerErrorMessage (senderModuleName msgType : String) (r : ResponseMsg) : String :=
  let generic := senderModuleName ++ "\x27s \"" ++ msgType ++ "\" request has failed."
  match r.data with
  | some (item :: _) =>
      if truthyStr item.error then item.error.getD generic else generic
  | _ => generic

/-- Possible settlements of the promise returned by `sendMessage`:
resolution with a value (`none` = `undefined`), rejection with a
`BrokerError`, rejection with a `TimeoutError` (carrying its `code`), or
resolution with `undefined` after emitting the error on the client's
internal `error` signal. -/
inductive SendOutcome where
  | resolved (v : Option (List RespItem))
  | rejectedBroker (message : String)
  | rejectedTimeout (code : String)
  | emittedError (code : String)
deriving DecidableEq, Repr

/-- Settlement of the `sendMessage` promise (lines 432-462).
`errorListening` models `this.errorEmittingEnabled` (a listener is attached
to the internal `error` signal).  For `event`/`response` frames nothing is
awaited and the promise resolves `undefined`.  Otherwise: on deadline
(`arrival = none`) the `TimeoutError` is caught — it is emitted when a
listener is attached, else logged at debug level — and the promise resolves
`undefined`; on an arrived response, `success` yields the response's `data`,
failure throws a `BrokerError` with `brokerErrorMessage`. -/
def sendMessageOutcome (senderModuleName msgType : String) (errorListening : Bool)
    (arrival : Option ResponseMsg) : SendOutcome :=
  if msgType = "event" ∨ msgType = "response" then .resolved none
  else
    match arrival with
    | none =>
        if errorListening then .emittedError "TIMEOUT"
        else .resolved none
    | some r =>
        if r.success then .resolved r.data
        else .rejectedBroker (brokerErrorMessage senderModuleName msgType r)

/-! ## `onceMultiple(target, eventNames, timeout)` (`onceMultiple.js`)

The helper installs a shared one-shot handler on every name of `eventNames`
and, when `timeout` is truthy, arms a timer.  JavaScript values carried by
events are modelled by `JVal`; `Promise.resolve(...args)` passes the spread
arguments to `resolve`, which keeps only the first one (`undefined` when
the event fired with no arguments). -/

/-- JavaScript values carried by emitted events. -/
inductive JVal where
  | undef
  | num (n : Int)
  | str (s : String)
  | arr (xs : List JVal)

/-- Settlement of the `onceMultiple` promise: resolution with a value, or
rejection with a `TimeoutError` carrying its `code` field. -/
inductive OnceOutcome where
  | resolvedWith (v : JVal)
  | timedOut (code : String)

/-- The observable state of one `onceMultiple` call: which event names still
have the installed listener, whether the timer is armed, and the promise's
settlement (if any). -/
structure OnceState where
  listeners : List String
  timerArmed : Bool
  settled : Option OnceOutcome

/-- State right after `onceMultiple(target, eventNames, timeout)` returns
(lines 25-53): a one-shot listener is installed on every name, and a timer
is armed exactly when `timeout` is truthy (`null`/absent and `0` arm
nothing). -/
def onceMultipleInit (eventNames : List String) (timeout : Option Int) : OnceState :=
  { listeners := eventNames
    timerArmed := match timeout with
      | some t => t ≠ 0
      | none => false
    settled := none }

/-- One of the subscribed events fires with argument list `args`
(lines 37-41): if the shared handler is still installed under that name, it
removes every installed listener, clears the timer, and resolves with
`resolve(...args)` — i.e. the first argument, `undefined` when there is
none. -/
def onceFireEvent (s : OnceState) (name : String) (args : List JVal) : OnceState :=
  if name ∈ s.listeners then
    { listeners := []
      timerArmed := false
      settled := some (.resolvedWith ((args.head?).getD .undef)) }
  else s

/-- The armed timer fires (lines 48-51): every installed listener is removed
and the promise rejects with `TimeoutError` (whose constructor sets
`code = 'TIMEOUT'`). -/
def onceFireTimer (s : OnceState) : OnceState :=
  if s.timerArmed then
    { listeners := []
      timerArmed := false
      settled := some (.timedOut "TIMEOUT") }
  else s

/-! ## `maxPacketSize` (`BrokerBase` constructor, lines 52-72)

`Number(override) || NaN` is taken from local storage or the environment,
passed through `Math.max(-, 1024000)`, and the result of `read || DEFAULT`
is stored.  JavaScript numbers where NaN matters are modelled by `JNum`. -/

/-- `DEFAULT_MAX_WS_PACKET_SIZE = 4 * 1024 * 1024` (line 22). -/
def DEFAULT_MAX_WS_PACKET_SIZE : Int := 4 * 1024 * 1024

/-- A JavaScript number: NaN or an integer value. -/
inductive JNum where
  | nan
  | val (n : Int)
deriving DecidableEq, Repr

/-- JavaScript `a || b`: `b` when `a` is falsy (NaN or `0`), else `a`. -/
def jnumOr (a b : JNum) : JNum :=
  match a with
  | .nan => b
  | .val n => if n = 0 then b else a

/-- JavaScript `Math.max`: NaN-propagating maximum. -/
def jmax (a b : JNum) : JNum :=
  match a, b with
  | .val x, .val y => .val (max x y)
  | _, _ => .nan

/-- The constructor's `maxPacketSize` computation (lines 52-67).  The input
is `Number(<MAX_WS_PACKET_SIZE override>)` — NaN when the override is
absent or does not parse.  `maxPacketSizeRead = input || NaN` is clamped by
`Math.max(-, 1024000)` and `this.maxPacketSize = read || DEFAULT`. -/
def computeMaxPacketSize (envParse : JNum) : JNum :=
  let maxPacketSizeRead := jnumOr envParse .nan
  let maxPacketSizeRead := jmax maxPacketSizeRead (.val 1024000)
  jnumOr maxPacketSizeRead (.val DEFAULT_MAX_WS_PACKET_SIZE)

/-! ## Duplicate forwarding in `BrokerClient.handleMessage` (lines 221-403)

A parent (`isDuplicate` false) holds a set of duplicate clients.  For each
inbound frame, the `switch` on `message.type` decides which duplicates get
the raw frame replayed through their own `handleMessage`.  Duplicates are
modelled by their module names, the set by a list (JavaScript `Set`
iterates in insertion order). -/

/-- The shape of an inbound frame, as far as the dispatch `switch` looks at
it: its `type` together with the field the corresponding case consults. -/
inductive Frame where
  | response (requestId : String)
  | event (eventName : String)
  | subscribe (eventName : String)
  | unsubscribe (eventName : String)
  | ping (targetModuleName : String)
  | methodCall (msgType : String)
deriving DecidableEq, Repr

/-- Model of the JavaScript `s.split('.')`: split the character list on the
dot (the empty string yields one empty piece, as in JavaScript). -/
def splitDotChars : List Char → List String
  | [] => [""]
  | c :: rest =>
      let r := splitDotChars rest
      if c = '.' then "" :: r
      else
        match r with
        | s :: tail => String.mk (c :: s.toList) :: tail
        | [] => [String.mk [c]]

/-- `eventName.split('.')` over a `String`. -/
def splitDot (s : String) : List String :=
  splitDotChars s.toList

/-- Model of the JavaScript `arr.join('.')`. -/
def joinDot : List String → String
  | [] => ""
  | [s] => s
  | s :: rest => s ++ "." ++ joinDot rest

/-- `eventName.split('.')`, pop the last component, re-join: the
`targetModuleName` computed in the `subscribe`/`unsubscribe` cases
(lines 271-273). -/
def fqnTargetModule (eventName : String) : String :=
  joinDot ((splitDot eventName).dropLast)

/-- The `for (const duplicate of this.duplicates) { if (match) { forward;
return; } }` loop of the `subscribe`, `unsubscribe` and `ping` cases:
forward to the first duplicate whose `moduleName` equals the target, then
stop. -/
def forwardToFirstMatch (duplicates : List String) (target : String) : List String :=
  match duplicates with
  | [] => []
  | d :: rest => if d = target then [d] else forwardToFirstMatch rest target

/-- Which duplicates receive the raw frame from a parent's `handleMessage`
(lines 221-403).  `response` and `event` frames are replayed to every
duplicate; `subscribe`/`unsubscribe` frames are forwarded only when the
parent itself is not the target, and then to the first duplicate whose
module name matches; `ping` likewise on `targetModuleName`; the `default`
case (a method FQN) forwards to no duplicate. -/
def duplicatesReceiving (selfModuleName : String) (duplicates : List String)
    (frame : Frame) : List String :=
  match frame with
  | .response _ => duplicates
  | .event _ => duplicates
  | .subscribe eventName =>
      let target := fqnTargetModule eventName
      if selfModuleName = target then []
      else forwardToFirstMatch duplicates target
  | .unsubscribe eventName =>
      let target := fqnTargetModule eventName
      if selfModuleName = target then []
      else forwardToFirstMatch duplicates target
  | .ping targetModuleName =>
      if targetModuleName ≠ selfModuleName then
        forwardToFirstMatch duplicates targetModuleName
      else []
  | .methodCall _ => []

/-! ## The `once` case of the method proxy (`BrokerBase.getMethodProxy`,
lines 128-163)

`p.once(eventName, handler, timeout?)` computes an effective timeout
(`args.shift() || 5 minutes`), validates it, and calls
`subscribeToAPIEvent(fqn, handler, { once: true })`.  `removalTimers`
records every timer the case arms to remove the handler later: the source
contains no `setTimeout`, so the list is empty and the computed timeout is
used only by the validation. -/

/-- Result of running the proxy's `once` case. -/
structure ProxyOnceResult where
  events : JMap (List SubEntry)
  removalTimers : List Int
  effectiveTimeout : Int
deriving DecidableEq, Repr

/-- The `once` case (lines 128-163): effective timeout is the caller's when
truthy, else `60 * 1000 * 5`; the handler is pushed with `once: true`; no
removal timer is armed. -/
def proxyOnceCase (events : JMap (List SubEntry)) (fullyQualifiedName : String)
    (eventHandler : Nat) (timeoutArg : Option Int) : ProxyOnceResult :=
  let timeout : Int := match timeoutArg with
    | some t => if t = 0 then 60 * 1000 * 5 else t
    | none => 60 * 1000 * 5
  { events := subscribeLocal events fullyQualifiedName eventHandler true
    removalTimers := []
    effectiveTimeout := timeout }

/-! ## `BrokerClient.deregisterHandlersFromRemotes` (lines 576-594)

The loop body builds a message whose `type` is
`` `${targetModuleName}.deregisterAPIHandlers` `` — but the only binding in
scope is the loop variable `registrar`, so evaluating the template literal
raises a `ReferenceError` that the surrounding `try` catches. -/

/-- An outbound message as far as this method shapes it. -/
structure SentMsg where
  type : String
  targetModuleName : String
deriving DecidableEq, Repr

/-- Variable lookup in a lexical scope (name ↦ value); an unbound name is a
`ReferenceError`. -/
def scopeLookup : List (String × String) → String → Except String String
  | [], v => .error ("ReferenceError: " ++ v ++ " is not defined")
  | (k, x) :: rest, v => if k = v then .ok x else scopeLookup rest v

/-- One iteration of the loop at lines 580-588: the message's `type`
interpolates the variable `targetModuleName` — absent from the scope, which
binds only `registrar` — and its `targetModuleName` field is `registrar`. -/
def deregLoopBody (registrar : String) : Except String SentMsg :=
  (scopeLookup [("registrar", registrar)] "targetModuleName").map
    (fun t => ⟨t ++ ".deregisterAPIHandlers", registrar⟩)

/-- `deregisterHandlersFromRemotes` (lines 576-594): iterate over the
registrars, sending one message per iteration; an exception aborts the loop
and is caught by the `try`/`catch` (which only logs).  Returns the messages
handed to `sendMessage` and the caught error, if any. -/
def deregisterHandlersFromRemotes (registrars : List String) :
    List SentMsg × Option String :=
  go registrars []
where
  go : List String → List SentMsg → List SentMsg × Option String
  | [], acc => (acc, none)
  | r :: rest, acc =>
      match deregLoopBody r with
      | .ok m => go rest (acc ++ [m])
      | .error e => (acc, some e)

/-- Modelled from the spec: the intended behaviour of
`deregisterHandlersFromRemotes`, which the source fails to implement because
of the unbound variable.  The spec reads: "The intended message type is
presumably `${registrar}.deregisterAPIHandlers` with `targetModuleName:
registrar`", mirroring `registerHandlersToRemote` — one message per
registrar. -/
def deregisterHandlersFromRemotesIntended (registrars : List String) : List SentMsg :=
  registrars.map (fun r => ⟨r ++ ".deregisterAPIHandlers", r⟩)

/-! ## Helper lemmas -/

/-- The error message thrown on a failed response, written out: the first
error string of the data array when it is non-empty and that string is
truthy, and the generic failure string otherwise. -/
theorem brokerErrorMessage_eq (sender msgType : String) (r : ResponseMsg) :
    brokerErrorMessage sender msgType r =
      (match r.data with
       | some (⟨some e⟩ :: _) =>
           if e ≠ "" then e
           else sender ++ "\x27s \"" ++ msgType ++ "\" request has failed."
       | _ => sender ++ "\x27s \"" ++ msgType ++ "\" request has failed.") := by
  unfold brokerErrorMessage
  rcases r with ⟨s, data⟩
  rcases data with _ | (_ | ⟨⟨err⟩, rest⟩)
  · rfl
  · rfl
  · rcases err with _ | e
    · rfl
    · by_cases he : e = "" <;> simp [truthyStr, he]

/-- The first-match forwarding loop is `List.find?`. -/
theorem forwardToFirstMatch_eq_find (duplicates : List String) (target : String) :
    forwardToFirstMatch duplicates target =
      (match duplicates.find? (fun d => d = target) with
       | some d => [d]
       | none => []) := by
  induction duplicates with
  | nil => rfl
  | cons d rest ih =>
    by_cases hd : d = target
    · simp [forwardToFirstMatch, List.find?, hd]
    · simp [forwardToFirstMatch, List.find?, hd, ih]

/-! ## Claim C1 -/

/-- Claim C1 counterexample: with no listener on the internal error signal, a
timed-out `hub.core.ping` request resolves `undefined`; it does not reject
with a `TimeoutError` of code `TIMEOUT` as the claim states. -/
theorem timeout_no_listener_counterexample :
    sendMessageOutcome "vendor.mod" "hub.core.ping" false none = .resolved none ∧
    sendMessageOutcome "vendor.mod" "hub.core.ping" false none ≠
      .rejectedTimeout "TIMEOUT" := by
  constructor
  · rfl
  · decide

/-- Claim C1 (amended): for an awaited request (type neither `event` nor
`response`) whose deadline fires before the correlated response, the caught
`TimeoutError` never reaches the caller: with no listener on the internal
error signal the promise resolves `undefined` after a debug log, and with a
listener the error is emitted on that signal and the promise also resolves
`undefined`. -/
theorem timeout_is_swallowed (sender msgType : String)
    (hgate : ¬(msgType = "event" ∨ msgType = "response")) :
    sendMessageOutcome sender msgType false none = .resolved none ∧
    sendMessageOutcome sender msgType true none = .emittedError "TIMEOUT" := by
  constructor <;> simp [sendMessageOutcome, hgate]

/-- Witness for `timeout_is_swallowed` at a concrete request type. -/
theorem timeout_is_swallowed_witness :
    sendMessageOutcome "vendor.mod" "hub.core.ping" false none = .resolved none ∧
    sendMessageOutcome "vendor.mod" "hub.core.ping" true none =
      .emittedError "TIMEOUT" :=
  timeout_is_swallowed "vendor.mod" "hub.core.ping" (by decide)

/-! ## Claim C2 -/

/-- Claim C2: when the correlated response arrives before the deadline, a
successful response resolves the promise to exactly the data list of the
response, and a failed response rejects with a `BrokerError` whose message is
`data[0].error` when the data list is non-empty and its first element carries
a truthy error string, and the generic failure string otherwise. -/
theorem awaited_response_settlement (sender msgType : String) (el : Bool)
    (r : ResponseMsg) (hgate : ¬(msgType = "event" ∨ msgType = "response")) :
    (r.success = true →
      sendMessageOutcome sender msgType el (some r) = .resolved r.data) ∧
    (r.success = false →
      sendMessageOutcome sender msgType el (some r) =
        .rejectedBroker
          (match r.data with
           | some (⟨some e⟩ :: _) =>
               if e ≠ "" then e
               else sender ++ "\x27s \"" ++ msgType ++ "\" request has failed."
           | _ => sender ++ "\x27s \"" ++ msgType ++ "\" request has failed.")) := by
  constructor
  · intro hs
    simp [sendMessageOutcome, hgate, hs]
  · intro hs
    simp [sendMessageOutcome, hgate, hs, brokerErrorMessage_eq]

/-- Witness for `awaited_response_settlement`: a failed response whose first
data element carries the error string `boom` rejects with exactly `boom`. -/
theorem awaited_response_settlement_witness :
    sendMessageOutcome "hub.core" "zd.mod.doIt" false
        (some ⟨false, some [⟨some "boom"⟩]⟩) = .rejectedBroker "boom" ∧
    sendMessageOutcome "hub.core" "zd.mod.doIt" false (some ⟨true, some []⟩) =
      .resolved (some []) := by
  constructor
  · have h := awaited_response_settlement "hub.core" "zd.mod.doIt" false
      ⟨false, some [⟨some "boom"⟩]⟩ (by decide)
    simpa using h.2 rfl
  · have h := awaited_response_settlement "hub.core" "zd.mod.doIt" false
      ⟨true, some []⟩ (by decide)
    simpa using h.1 rfl

/-! ## Claim C3 -/

/-- Claim C3 counterexample: a parent with one live duplicate replays a
method-call frame to no duplicate at all, and a subscribe frame targeting the
parent itself is likewise not forwarded, refuting the claim that every
inbound frame reaches every live duplicate. -/
theorem forwarding_not_universal_counterexample :
    duplicatesReceiving "hub.core" ["zd.dup"] (.methodCall "zd.dup.doIt") = [] ∧
    "zd.dup" ∉ duplicatesReceiving "hub.core" ["zd.dup"] (.methodCall "zd.dup.doIt") ∧
    duplicatesReceiving "hub.core" ["zd.dup"] (.subscribe "hub.core.tick") = [] := by
  refine ⟨rfl, ?_, ?_⟩
  · decide
  · decide

/-- Claim C3 (amended): only `response` and `event` frames are replayed to
every live duplicate; `subscribe` and `unsubscribe` frames are forwarded —
when the parent is not itself the target — to the first duplicate whose
module name equals the target module of the event FQN; `ping` frames
likewise on their `targetModuleName`; a method-call frame is forwarded to no
duplicate. -/
theorem duplicate_forwarding_by_frame_type (self : String) (dups : List String)
    (rid en1 en2 en3 tm mt : String) :
    duplicatesReceiving self dups (.response rid) = dups ∧
    duplicatesReceiving self dups (.event en1) = dups ∧
    duplicatesReceiving self dups (.subscribe en2) =
      (if self = fqnTargetModule en2 then []
       else match dups.find? (fun d => d = fqnTargetModule en2) with
            | some d => [d]
            | none => []) ∧
    duplicatesReceiving self dups (.unsubscribe en3) =
      (if self = fqnTargetModule en3 then []
       else match dups.find? (fun d => d = fqnTargetModule en3) with
            | some d => [d]
            | none => []) ∧
    duplicatesReceiving self dups (.ping tm) =
      (if tm ≠ self then
        match dups.find? (fun d => d = tm) with
        | some d => [d]
        | none => []
       else []) ∧
    duplicatesReceiving self dups (.methodCall mt) = [] := by
  refine ⟨rfl, rfl, ?_, ?_, ?_, rfl⟩ <;>
    simp only [duplicatesReceiving, forwardToFirstMatch_eq_find]

/-! ## Claim C4 -/

/-- Claim C4: `registerAPIHandler` installs `{relay := false, messageHandler}`
at the key `<moduleName>.<localName>` and returns `true` when the key is
absent; when the key is present it returns `false` and leaves the table
unchanged; and the registration path of the method proxy rejects the
reserved local names `emit`, `on` and `off` with an error, so they are never
installed. -/
theorem registerAPIHandler_spec (self vendor mod localName : String)
    (tbl : JMap APIHandler) (fn fn2 : Nat)
    (hself : self = vendor ++ "." ++ mod) :
    (tbl.hasKey (self ++ "." ++ localName) = false →
      registerAPIHandler self tbl localName fn =
        (tbl.setKey (self ++ "." ++ localName) ⟨false, fn⟩, true) ∧
      (registerAPIHandler self tbl localName fn).1.getKey?
          (self ++ "." ++ localName) = some ⟨false, fn⟩) ∧
    (tbl.hasKey (self ++ "." ++ localName) = true →
      registerAPIHandler self tbl localName fn = (tbl, false)) ∧
    ((localName = "emit" ∨ localName = "on" ∨ localName = "off") →
      methodProxySet self vendor mod tbl localName true fn2 =
        .error (localName ++ " is a reserved method name.")) := by
  refine ⟨?_, ?_, ?_⟩
  · intro habs
    refine ⟨?_, ?_⟩
    · simp [registerAPIHandler, habs]
    · simp [registerAPIHandler, habs, JMap.getKey_setKey_self]
  · intro hpres
    simp [registerAPIHandler, hpres]
  · intro hres
    subst hself
    simp [methodProxySet, hres]

/-- Witness for `registerAPIHandler_spec`: on an empty table, registering the
local name `doIt` for module `zd.mod` installs the handler under
`zd.mod.doIt` and returns `true`; once present, a second registration
returns `false` and keeps the table; the proxy set trap rejects `emit`. -/
theorem registerAPIHandler_spec_witness :
    registerAPIHandler "zd.mod" [] "doIt" 3 =
      ([("zd.mod.doIt", ⟨false, 3⟩)], true) ∧
    registerAPIHandler "zd.mod" [("zd.mod.doIt", ⟨false, 3⟩)] "doIt" 4 =
      ([("zd.mod.doIt", ⟨false, 3⟩)], false) ∧
    methodProxySet "zd.mod" "zd" "mod" [] "emit" true 4 =
      .error "emit is a reserved method name." := by
  refine ⟨?_, ?_, ?_⟩
  · have h := registerAPIHandler_spec "zd.mod" "zd" "mod" "doIt" [] 3 4 (by decide)
    simpa using (h.1 (by decide)).1
  · have h := registerAPIHandler_spec "zd.mod" "zd" "mod" "doIt"
      [("zd.mod.doIt", ⟨false, 3⟩)] 4 5 (by decide)
    simpa using h.2.1 (by decide)
  · have h := registerAPIHandler_spec "zd.mod" "zd" "mod" "emit" [] 3 4 (by decide)
    simpa using h.2.2 (Or.inl rfl)

/-! ## Claim C5 -/

/-- Claim C5 counterexample: an event firing with two arguments settles the
promise with the FIRST argument (`resolve(...args)` keeps only the first
spread argument); it does not resolve with the argument list, as the claim
states. -/
theorem onceMultiple_first_argument_counterexample :
    (onceFireEvent (onceMultipleInit ["e"] none) "e" [.num 1, .num 2]).settled =
      some (.resolvedWith (.num 1)) ∧
    (onceFireEvent (onceMultipleInit ["e"] none) "e" [.num 1, .num 2]).settled ≠
      some (.resolvedWith (.arr [.num 1, .num 2])) := by
  constructor
  · rfl
  · simp [onceFireEvent, onceMultipleInit]

/-- Claim C5 (amended): the promise settles with the first argument of
whichever named event fires first (`undefined` when the event carries no
argument) and every installed listener is removed and the timer cleared; if
a truthy timeout elapses first, the promise rejects with a `TimeoutError`
whose `code` is `TIMEOUT` and every listener is removed; a zero or absent
timeout arms no timer, so the promise can never fail by timeout. -/
theorem onceMultiple_spec (eventNames : List String) (timeout : Option Int)
    (name : String) (args : List JVal) (t : Int)
    (hmem : name ∈ eventNames) (ht : t ≠ 0) :
    onceFireEvent (onceMultipleInit eventNames timeout) name args =
      ⟨[], false, some (.resolvedWith ((args.head?).getD .undef))⟩ ∧
    onceFireTimer (onceMultipleInit eventNames (some t)) =
      ⟨[], false, some (.timedOut "TIMEOUT")⟩ ∧
    (onceMultipleInit eventNames (some 0)).timerArmed = false ∧
    (onceMultipleInit eventNames none).timerArmed = false ∧
    onceFireTimer (onceMultipleInit eventNames (some 0)) =
      onceMultipleInit eventNames (some 0) ∧
    onceFireTimer (onceMultipleInit eventNames none) =
      onceMultipleInit eventNames none := by
  refine ⟨?_, ?_, rfl, rfl, ?_, ?_⟩
  · simp [onceFireEvent, onceMultipleInit, hmem]
  · simp [onceFireTimer, onceMultipleInit, ht]
  · simp [onceFireTimer, onceMultipleInit]
  · simp [onceFireTimer, onceMultipleInit]

/-- Witness for `onceMultiple_spec` at two event names, a 500 ms timeout and
a one-argument firing. -/
theorem onceMultiple_spec_witness :
    onceFireEvent (onceMultipleInit ["e1", "e2"] (some 500)) "e2" [.str "x"] =
      ⟨[], false, some (.resolvedWith ((([JVal.str "x"]).head?).getD .undef))⟩ ∧
    onceFireTimer (onceMultipleInit ["e1", "e2"] (some 500)) =
      ⟨[], false, some (.timedOut "TIMEOUT")⟩ ∧
    (onceMultipleInit ["e1", "e2"] (some 0)).timerArmed = false ∧
    (onceMultipleInit ["e1", "e2"] none).timerArmed = false ∧
    onceFireTimer (onceMultipleInit ["e1", "e2"] (some 0)) =
      onceMultipleInit ["e1", "e2"] (some 0) ∧
    onceFireTimer (onceMultipleInit ["e1", "e2"] none) =
      onceMultipleInit ["e1", "e2"] none :=
  onceMultiple_spec ["e1", "e2"] (some 500) "e2" [.str "x"] 500
    (by decide) (by decide)

/-! ## Claim C6 -/

/-- Claim C6 counterexample: with the same handler registered twice under one
event, a single targeted unsubscribe removes BOTH entries (the source
filters the whole entry list), leaving none to fire — not just the first. -/
theorem unsubscribe_duplicates_counterexample :
    (unsubscribeLocal [("E", [⟨5, false⟩, ⟨5, false⟩])] "E" (some 5)).getKey? "E" =
      some [] ∧
    (unsubscribeLocal [("E", [⟨5, false⟩, ⟨5, false⟩])] "E" (some 5)).getKey? "E" ≠
      some [⟨5, false⟩] ∧
    firingEntries (unsubscribeLocal [("E", [⟨5, false⟩, ⟨5, false⟩])] "E" (some 5))
      "E" = [] := by
  refine ⟨by decide, by decide, by decide⟩

/-- Claim C6 (amended): a single targeted unsubscribe removes EVERY entry
whose handler matches, duplicates included; entries with other handlers are
kept in order and keep firing, while the removed handler fires no more. -/
theorem unsubscribe_targeted_filters_all (events : JMap (List SubEntry))
    (e : String) (h : Nat) :
    (unsubscribeLocal events e (some h)).getKey? e =
      some (((events.getKey? e).getD []).filter (fun en => en.eventHandler ≠ h)) ∧
    firingEntries (unsubscribeLocal events e (some h)) e =
      (firingEntries events e).filter (fun en => en.eventHandler ≠ h) ∧
    (firingEntries (unsubscribeLocal events e (some h)) e).all
      (fun en => en.eventHandler ≠ h) = true := by
  refine ⟨?_, ?_, ?_⟩
  · simp [unsubscribeLocal, JMap.getKey_setKey_self]
  · simp [unsubscribeLocal, firingEntries, JMap.getKey_setKey_self]
  · simp only [unsubscribeLocal, firingEntries, JMap.getKey_setKey_self,
      Option.getD_some, List.all_filter]
    exact List.all_eq_true.mpr (fun en _ => by simp)

/-! ## Claim C7 -/

/-- Claim C7 counterexample: starting from a table where the handler is
already subscribed once, subscribe followed by targeted unsubscribe empties
the entry instead of restoring it; starting from a table without the key,
the round trip leaves the key present (mapped to the empty list) instead of
absent. -/
theorem subscribe_unsubscribe_roundtrip_counterexample :
    (unsubscribeLocal (subscribeLocal [("E", [⟨7, false⟩])] "E" 7 false) "E"
        (some 7)).getKey? "E" = some [] ∧
    JMap.getKey? ([("E", [⟨7, false⟩])] : JMap (List SubEntry)) "E" =
      some [⟨7, false⟩] ∧
    (unsubscribeLocal (subscribeLocal [("E", [⟨7, false⟩])] "E" 7 false) "E"
        (some 7)).getKey? "E" ≠
      JMap.getKey? ([("E", [⟨7, false⟩])] : JMap (List SubEntry)) "E" ∧
    JMap.hasKey ([] : JMap (List SubEntry)) "E" = false ∧
    (unsubscribeLocal (subscribeLocal [] "E" 7 false) "E" (some 7)).hasKey "E" =
      true := by
  refine ⟨by decide, by decide, by decide, by decide, by decide⟩

/-- Claim C7 (amended): subscribe followed by targeted unsubscribe maps the
entry of the event to the prior list with every entry for that handler
removed (the key becoming present even when it was absent, since the
unsubscribe stores the filtered list back); it restores the prior entry list
exactly when the prior list contained no entry for the handler; entries
under other keys are untouched. -/
theorem subscribe_unsubscribe_roundtrip (events : JMap (List SubEntry))
    (e : String) (h : Nat) (once : Bool) :
    (unsubscribeLocal (subscribeLocal events e h once) e (some h)).getKey? e =
      some (((events.getKey? e).getD []).filter (fun en => en.eventHandler ≠ h)) ∧
    ((∀ en ∈ (events.getKey? e).getD [], en.eventHandler ≠ h) →
      (unsubscribeLocal (subscribeLocal events e h once) e (some h)).getKey? e =
        some ((events.getKey? e).getD [])) ∧
    (∀ k, k ≠ e →
      (unsubscribeLocal (subscribeLocal events e h once) e (some h)).getKey? k =
        events.getKey? k) := by
  have hsub : (subscribeLocal events e h once).getKey? e =
      some (((events.getKey? e).getD []) ++ [⟨h, once⟩]) := by
    simp [subscribeLocal, JMap.getKey_setKey_self]
  refine ⟨?_, ?_, ?_⟩
  · simp [unsubscribeLocal, JMap.getKey_setKey_self, hsub, List.filter_append]
  · intro hnone
    have hfilter : ((events.getKey? e).getD []).filter
        (fun en => en.eventHandler ≠ h) = (events.getKey? e).getD [] :=
      List.filter_eq_self.mpr (fun en hen => by simpa using hnone en hen)
    simp only [unsubscribeLocal, JMap.getKey_setKey_self, hsub,
      Option.getD_some, List.filter_append, hfilter, Option.some.injEq]
    simp
  · intro k hk
    simp [unsubscribeLocal, subscribeLocal,
      JMap.getKey_setKey_other _ _ _ _ hk]

/-- Witness for `subscribe_unsubscribe_roundtrip`: a table holding a
different handler under the event and another key, where the round trip
restores the entry list and leaves the other key untouched. -/
theorem subscribe_unsubscribe_roundtrip_witness :
    (unsubscribeLocal (subscribeLocal [("E", [⟨9, false⟩]), ("F", [⟨7, true⟩])]
        "E" 7 false) "E" (some 7)).getKey? "E" = some [⟨9, false⟩] ∧
    (unsubscribeLocal (subscribeLocal [("E", [⟨9, false⟩]), ("F", [⟨7, true⟩])]
        "E" 7 false) "E" (some 7)).getKey? "F" = some [⟨7, true⟩] := by
  have h := subscribe_unsubscribe_roundtrip
    [("E", [⟨9, false⟩]), ("F", [⟨7, true⟩])] "E" 7 false
  refine ⟨?_, ?_⟩
  · have := h.2.1 (by decide)
    simpa using this
  · have := h.2.2 "F" (by decide)
    simpa using this

/-! ## Claim C8 -/

/-- Claim C8 counterexample: an override of exactly 1 000 000 — at the floor
the claim names — is clamped to 1 024 000 by the source (the clamp constant
is `1024000`, not `1000000`), so the claimed value `max v 1000000` is
wrong. -/
theorem maxPacketSize_floor_counterexample :
    computeMaxPacketSize (.val 1000000) = .val 1024000 ∧
    computeMaxPacketSize (.val 1000000) ≠ .val (max 1000000 1000000) := by
  refine ⟨by decide, by decide⟩

/-- Claim C8 (amended): a positive override `v` yields
`maxPacketSize = max v 1024000`: overrides below 1 024 000 are clamped to
exactly 1 024 000 and overrides at or above 1 024 000 are used as-is; with
no valid override (NaN), the 4 MiB default stands. -/
theorem maxPacketSize_spec (v : Int) (hv : 0 < v) :
    computeMaxPacketSize (.val v) = .val (max v 1024000) ∧
    (v < 1024000 → computeMaxPacketSize (.val v) = .val 1024000) ∧
    (1024000 ≤ v → computeMaxPacketSize (.val v) = .val v) ∧
    computeMaxPacketSize .nan = .val DEFAULT_MAX_WS_PACKET_SIZE := by
  have hv0 : v ≠ 0 := by omega
  have hm : ¬ (max v 1024000 = 0) := by
    have : (1024000 : Int) ≤ max v 1024000 := le_max_right _ _
    omega
  refine ⟨?_, ?_, ?_, rfl⟩
  · simp [computeMaxPacketSize, jnumOr, jmax, hv0, hm]
  · intro hlt
    have : max v 1024000 = 1024000 := max_eq_right (by omega)
    simp [computeMaxPacketSize, jnumOr, jmax, hv0, hm, this]
  · intro hge
    have : max v 1024000 = v := max_eq_left (by omega)
    simp [computeMaxPacketSize, jnumOr, jmax, hv0, hm, this]

/-- Witness for `maxPacketSize_spec` at the positive override 5. -/
theorem maxPacketSize_spec_witness :
    computeMaxPacketSize (.val 5) = .val (max 5 1024000) ∧
    ((5 : Int) < 1024000 → computeMaxPacketSize (.val 5) = .val 1024000) ∧
    ((1024000 : Int) ≤ 5 → computeMaxPacketSize (.val 5) = .val 5) ∧
    computeMaxPacketSize .nan = .val DEFAULT_MAX_WS_PACKET_SIZE :=
  maxPacketSize_spec 5 (by decide)

/-! ## Claim C9 -/

/-- Claim C9: the claim (and the comment in the source at lines 132-136)
says the `{handler, once := true}` entry is removed when no event arrives
within the effective timeout; the source computes that timeout (defaulting
to 5 minutes) but arms NO removal timer, so once the entry is pushed nothing
ever removes it without an event: the handler leaks, contradicting the
documented intent. -/
theorem proxyOnce_never_removes_handler (events : JMap (List SubEntry))
    (fqn : String) (h : Nat) (timeoutArg : Option Int) :
    (proxyOnceCase events fqn h timeoutArg).removalTimers = [] ∧
    (proxyOnceCase events fqn h timeoutArg).events.getKey? fqn =
      some (((events.getKey? fqn).getD []) ++ [⟨h, true⟩]) ∧
    (proxyOnceCase events fqn h none).effectiveTimeout = 60 * 1000 * 5 := by
  refine ⟨rfl, ?_, rfl⟩
  simp [proxyOnceCase, subscribeLocal, JMap.getKey_setKey_self]

/-! ## Claim C10 -/

/-- Claim C10: the loop of `deregisterHandlersFromRemotes` interpolates the
unbound variable `targetModuleName`, so on a duplicate with registrar
`hub.core` the first iteration raises a `ReferenceError` that the `catch`
swallows and NO deregistration message is sent, while the behaviour the
claim (and the spec) describe would send one `hub.core.deregisterAPIHandlers`
message with `targetModuleName` set to `hub.core`. -/
theorem deregisterHandlers_reference_error :
    deregisterHandlersFromRemotes ["hub.core"] =
      ([], some "ReferenceError: targetModuleName is not defined") ∧
    deregisterHandlersFromRemotesIntended ["hub.core"] =
      [⟨"hub.core.deregisterAPIHandlers", "hub.core"⟩] ∧
    (deregisterHandlersFromRemotes ["hub.core"]).1 ≠
      deregisterHandlersFromRemotesIntended ["hub.core"] := by
  refine ⟨by decide, by decide, by decide⟩

end RealityHub
